import Mathlib

/-!
Shallow embedding of src/YT_Performance_Model.py, a Streamlit app that
loads three artifacts (a trained model, its ordered feature-name list,
and a feature-name to historical-mean mapping), renders 11 numeric
input widgets, merges user overrides into a complete feature vector in
the model feature order, and invokes the model on a button press.

Python dicts are modelled as association lists with Python semantics:
insertion order is preserved, assignment to an existing key updates it
in place, assignment to a fresh key appends.  Numeric values are Rat.
-/

namespace YT

/-- Python dict lookup d[k] as an Option: first (hence unique) match. -/
def dlookup : List (String × Rat) → String → Option Rat
  | [], _ => none
  | (k2, v) :: rest, k => if k = k2 then some v else dlookup rest k

/-- Python d.get(k, dflt). -/
def dget (d : List (String × Rat)) (k : String) (dflt : Rat) : Rat :=
  (dlookup d k).getD dflt

/-- Python membership test k in d. -/
def dmem (d : List (String × Rat)) (k : String) : Bool :=
  (dlookup d k).isSome

/-- Python assignment d[k] = v: update in place if the key exists,
otherwise append at the end. -/
def dinsert : List (String × Rat) → String → Rat → List (String × Rat)
  | [], k, v => [(k, v)]
  | (k2, v2) :: rest, k, v =>
      if k = k2 then (k2, v) :: rest else (k2, v2) :: dinsert rest k v

theorem dlookup_dinsert (d : List (String × Rat)) (k k2 : String) (v : Rat) :
    dlookup (dinsert d k v) k2 = if k2 = k then some v else dlookup d k2 := by
  induction d with
  | nil =>
      simp only [dinsert, dlookup]
  | cons p rest ih =>
      obtain ⟨k3, v3⟩ := p
      by_cases hk : k = k3
      · subst hk
        simp only [dinsert, if_pos rfl, dlookup]
        by_cases h2 : k2 = k <;> simp [h2]
      · simp only [dinsert, if_neg hk, dlookup]
        by_cases h2 : k2 = k3
        · subst h2
          have : ¬ k2 = k := fun h => hk (h ▸ rfl)
          simp [this]
        · simp only [if_neg h2, ih]

theorem dmem_dinsert (d : List (String × Rat)) (k k2 : String) (v : Rat) :
    dmem (dinsert d k v) k2 = (dmem d k2 || decide (k2 = k)) := by
  simp only [dmem, dlookup_dinsert]
  by_cases h : k2 = k <;> simp [h]

/-- The dict comprehension on line 139 of the source,
input_df_dict = \x7bfeature: feature_means[feature] for feature in model_features\x7d,
threaded through an accumulator.  A feature of model_features absent
from feature_means raises KeyError, modelled as none. -/
def build_means_dict (feature_means : List (String × Rat)) :
    List (String × Rat) → List String → Option (List (String × Rat))
  | d, [] => some d
  | d, f :: rest =>
      match dlookup feature_means f with
      | some v => build_means_dict feature_means (dinsert d f v) rest
      | none => none

/-- Line 139: input_df_dict starts as all means, in model-feature order. -/
def input_df_dict (feature_means : List (String × Rat))
    (model_features : List String) : Option (List (String × Rat)) :=
  build_means_dict feature_means [] model_features

/-- Lines 142-144: for feature, value in user_inputs.items(), overwrite
input_df_dict[feature] when the feature is already a key of the dict. -/
def apply_user_inputs : List (String × Rat) → List (String × Rat) → List (String × Rat)
  | d, [] => d
  | d, (f, v) :: rest =>
      apply_user_inputs (if dmem d f then dinsert d f v else d) rest

/-- Lines 146-147: pd.DataFrame([input_df_dict], columns=model_features).
One row, one cell per entry of model_features in that order; a column
name missing from the dict would be a NaN cell, modelled as none. -/
def input_df (feature_means : List (String × Rat)) (model_features : List String)
    (user_inputs : List (String × Rat)) : Option (List (String × Option Rat)) :=
  match input_df_dict feature_means model_features with
  | none => none
  | some d0 =>
      let d := apply_user_inputs d0 user_inputs
      some (model_features.map (fun f => (f, dlookup d f)))

theorem build_means_dict_lookup (fm : List (String × Rat)) :
    ∀ (mf : List String) (d0 d : List (String × Rat)),
      build_means_dict fm d0 mf = some d →
      ∀ k, dlookup d k = if k ∈ mf then dlookup fm k else dlookup d0 k := by
  intro mf
  induction mf with
  | nil =>
      intro d0 d h k
      simp only [build_means_dict, Option.some.injEq] at h
      subst h
      simp
  | cons f rest ih =>
      intro d0 d h k
      simp only [build_means_dict] at h
      cases hf : dlookup fm f with
      | none => rw [hf] at h; exact absurd h (by simp)
      | some v =>
          rw [hf] at h
          have hk := ih (dinsert d0 f v) d h k
          by_cases hmem : k ∈ rest
          · rw [hk, if_pos hmem, if_pos (List.mem_cons_of_mem f hmem)]
          · rw [hk, if_neg hmem, dlookup_dinsert]
            by_cases hkf : k = f
            · subst hkf
              rw [if_pos rfl, if_pos (List.mem_cons_self k rest), hf]
            · rw [if_neg hkf, if_neg (by simp [hkf, hmem])]

theorem build_means_dict_isSome (fm : List (String × Rat)) :
    ∀ (mf : List String), (∀ f ∈ mf, (dlookup fm f).isSome) →
      ∀ d0, (build_means_dict fm d0 mf).isSome := by
  intro mf
  induction mf with
  | nil => intro _ d0; simp [build_means_dict]
  | cons f rest ih =>
      intro hcov d0
      have hf : (dlookup fm f).isSome := hcov f (List.mem_cons_self f rest)
      cases hfv : dlookup fm f with
      | none => rw [hfv] at hf; exact absurd hf (by simp)
      | some v =>
          simp only [build_means_dict, hfv]
          exact ih (fun g hg => hcov g (List.mem_cons_of_mem f hg)) (dinsert d0 f v)

theorem build_means_dict_none (fm : List (String × Rat)) :
    ∀ (mf : List String) (f : String), f ∈ mf → dlookup fm f = none →
      ∀ d0, build_means_dict fm d0 mf = none := by
  intro mf
  induction mf with
  | nil => intro f hf; exact absurd hf (by simp)
  | cons g rest ih =>
      intro f hf habs d0
      cases hgv : dlookup fm g with
      | none => simp [build_means_dict, hgv]
      | some v =>
          simp only [build_means_dict, hgv]
          have hne : f ≠ g := by
            intro h; subst h; rw [hgv] at habs; exact absurd habs (by simp)
          have hfr : f ∈ rest := by
            rcases List.mem_cons.mp hf with h | h
            · exact absurd h hne
            · exact h
          exact ih f hfr habs (dinsert d0 g v)

theorem dmem_apply_user_inputs (ui : List (String × Rat)) :
    ∀ (d : List (String × Rat)) (k : String),
      dmem (apply_user_inputs d ui) k = dmem d k := by
  induction ui with
  | nil => intro d k; rfl
  | cons p rest ih =>
      intro d k
      obtain ⟨f, v⟩ := p
      simp only [apply_user_inputs]
      rw [ih]
      by_cases hmem : dmem d f
      · rw [if_pos hmem, dmem_dinsert]
        by_cases hkf : k = f
        · subst hkf; simp [hmem]
        · simp [hkf]
      · rw [if_neg hmem]

theorem dlookup_apply_user_inputs_not_mem (ui : List (String × Rat)) :
    ∀ (d : List (String × Rat)) (k : String), k ∉ ui.map Prod.fst →
      dlookup (apply_user_inputs d ui) k = dlookup d k := by
  induction ui with
  | nil => intro d k _; rfl
  | cons p rest ih =>
      intro d k hk
      obtain ⟨f, v⟩ := p
      simp only [List.map_cons, List.mem_cons] at hk
      push_neg at hk
      simp only [apply_user_inputs]
      rw [ih _ _ hk.2]
      by_cases hmem : dmem d f
      · rw [if_pos hmem, dlookup_dinsert, if_neg hk.1]
      · rw [if_neg hmem]

theorem dlookup_apply_user_inputs_mem (ui : List (String × Rat)) :
    ∀ (d : List (String × Rat)) (f : String) (v : Rat),
      (ui.map Prod.fst).Nodup → (f, v) ∈ ui → dmem d f →
      dlookup (apply_user_inputs d ui) f = some v := by
  induction ui with
  | nil => intro _ _ _ _ h; exact absurd h (by simp)
  | cons p rest ih =>
      intro d f v hnd hmem hd
      obtain ⟨g, w⟩ := p
      simp only [List.map_cons, List.nodup_cons] at hnd
      rcases List.mem_cons.mp hmem with h | h
      · obtain ⟨h1, h2⟩ := Prod.mk.injEq .. ▸ h
        subst h1; subst h2
        simp only [apply_user_inputs, if_pos hd]
        have hnot : f ∉ rest.map Prod.fst := hnd.1
        rw [dlookup_apply_user_inputs_not_mem rest _ f hnot,
          dlookup_dinsert, if_pos rfl]
      · have hfg : f ≠ g := by
          intro hEq; subst hEq
          exact hnd.1 (List.mem_map.mpr ⟨(f, v), h, rfl⟩)
        simp only [apply_user_inputs]
        by_cases hmg : dmem d g
        · rw [if_pos hmg]
          have hd2 : dmem (dinsert d g w) f := by
            rw [dmem_dinsert]; simp [hd]
          exact ih _ f v hnd.2 h hd2
        · rw [if_neg hmg]
          exact ih _ f v hnd.2 h hd

/-- Lines 34-46: mapping from internal feature name to displayed label,
in source order. -/
def input_features_display_names : List (String × String) :=
  [("Views", "Total Views"),
   ("Watch Time (hours)", "Total Watch Time (hours)"),
   ("Subscribers", "Total Subscribers"),
   ("Video Duration", "Average Video Duration (seconds)"),
   ("Likes", "Total Likes"),
   ("New Comments", "Total New Comments"),
   ("Shares", "Total Shares"),
   ("Impressions", "Total Impressions"),
   ("Video Thumbnail CTR (%)", "Video Thumbnail Click-Through Rate (%)"),
   ("Average View Percentage (%)", "Average View Percentage (%)"),
   ("Average View Duration", "Average View Duration (seconds)")]

/-- The parameters of one st.number_input widget: label, min_value,
optional max_value, default value and step (format string is cosmetic
and fixed at two decimals for every widget). -/
structure NumberInput where
  label : String
  min_value : Rat
  max_value : Option Rat
  value : Rat
  step : Rat
deriving DecidableEq, Repr

/-- Lines 55-136: the 11 widgets, keyed by internal feature name, in
source order (column 1 then column 2).  Each default is
float(feature_means.get(name, 0)). -/
def form_widgets (feature_means : List (String × Rat)) : List (String × NumberInput) :=
  [("Views",
    ⟨"Total Views", 0, none, dget feature_means "Views" 0, 1000⟩),
   ("Watch Time (hours)",
    ⟨"Total Watch Time (hours)", 0, none, dget feature_means "Watch Time (hours)" 0, 100⟩),
   ("Subscribers",
    ⟨"Total Subscribers", 0, none, dget feature_means "Subscribers" 0, 10⟩),
   ("Video Duration",
    ⟨"Average Video Duration (seconds)", 0, none, dget feature_means "Video Duration" 0, 10⟩),
   ("Likes",
    ⟨"Total Likes", 0, none, dget feature_means "Likes" 0, 10⟩),
   ("New Comments",
    ⟨"Total New Comments", 0, none, dget feature_means "New Comments" 0, 1⟩),
   ("Shares",
    ⟨"Total Shares", 0, none, dget feature_means "Shares" 0, 1⟩),
   ("Impressions",
    ⟨"Total Impressions", 0, none, dget feature_means "Impressions" 0, 1000⟩),
   ("Video Thumbnail CTR (%)",
    ⟨"Video Thumbnail Click-Through Rate (%)", 0, some 100,
      dget feature_means "Video Thumbnail CTR (%)" 0, 1/10⟩),
   ("Average View Percentage (%)",
    ⟨"Average View Percentage (%)", 0, some 100,
      dget feature_means "Average View Percentage (%)" 0, 1/10⟩),
   ("Average View Duration",
    ⟨"Average View Duration (seconds)", 0, none, dget feature_means "Average View Duration" 0, 10⟩)]

/-- The value a number_input widget holds: the widget constrains any
entered value to [min_value, max_value]. -/
def widget_value (w : NumberInput) (entered : Rat) : Rat :=
  let v := max w.min_value entered
  match w.max_value with
  | none => v
  | some m => min v m

/-- Lines 49-136: the user_inputs dict, keyed by the 11 internal
feature names in source order; entered gives the raw value the user
typed into each widget. -/
def user_inputs (feature_means : List (String × Rat)) (entered : String → Rat) :
    List (String × Rat) :=
  (form_widgets feature_means).map (fun p => (p.1, widget_value p.2 (entered p.1)))

/-- The two percentage-typed features, the only widgets with a
max_value. -/
def percentage_features : List String :=
  ["Video Thumbnail CTR (%)", "Average View Percentage (%)"]

/-- Lines 20-22: the fixed message shown when a joblib.load raises
FileNotFoundError, whichever artifact is missing. -/
def load_error_msg : String :=
  "Error: Model files not found. Please ensure \x27youtube_revenue_model.joblib\x27, \x27model_features.joblib\x27, and \x27feature_means.joblib\x27 are in the same directory as this app."

/-- Result of the artifact loading block, lines 15-22: either all three
artifacts, or st.error plus st.stop with the fixed message. -/
inductive LoadResult (α : Type) where
  | halted (msg : String)
  | loaded (model : α) (model_features : List String)
      (feature_means : List (String × Rat))
deriving DecidableEq

/-- Lines 15-22: the three joblib.load calls run in order inside one
try; the first missing file raises FileNotFoundError, which is caught
and answered with st.error(load_error_msg) and st.stop. -/
def loadArtifacts {α : Type} (model : Option α) (model_features : Option (List String))
    (feature_means : Option (List (String × Rat))) : LoadResult α :=
  match model with
  | none => .halted load_error_msg
  | some m =>
      match model_features with
      | none => .halted load_error_msg
      | some mf =>
          match feature_means with
          | none => .halted load_error_msg
          | some fm => .loaded m mf fm

/-- What one script run renders: either the halted error page (no form)
or the form page with its 11 widgets and the constructed DataFrame. -/
inductive SessionView where
  | halted (msg : String)
  | page (widgets : List (String × NumberInput)) (df : Option (List (String × Option Rat)))
deriving DecidableEq

/-- One top-to-bottom script run up to the prediction button: load the
artifacts; on failure halt before any widget is rendered, otherwise
render the 11 widgets and build input_df from the current form state. -/
def runSession {α : Type} (model : Option α) (model_features : Option (List String))
    (feature_means : Option (List (String × Rat))) (entered : String → Rat) : SessionView :=
  match loadArtifacts model model_features feature_means with
  | .halted msg => .halted msg
  | .loaded _ mf fm =>
      .page (form_widgets fm) (input_df fm mf (user_inputs fm entered))

/-- What the button handler displays on lines 151-157: the predicted
value (rendered as currency to two decimals) or the st.error text. -/
inductive PredictDisplay where
  | success (prediction : Rat)
  | errorMsg (text : String)
deriving DecidableEq

/-- Lines 152-157: model.predict(input_df)[0] inside try/except
Exception; predict abstracts the model artifact, with error e standing
for a raised exception whose str is e. -/
def press_predict (predict : List (String × Option Rat) → Except String Rat)
    (df : List (String × Option Rat)) : PredictDisplay :=
  match predict df with
  | .ok p => .success p
  | .error e => .errorMsg ("An error occurred during prediction: " ++ e)

/-- The session-scoped artifacts after a successful load. -/
structure Session (α : Type) where
  model : α
  model_features : List String
  feature_means : List (String × Rat)
deriving DecidableEq

/-- One full rerun of the script body with a button press at the end:
returns the artifacts as they stand after the run together with what
the press displayed (none when the script already failed with KeyError
while building input_df_dict, before the button). -/
def render_and_press {α : Type} (predict : α → List (String × Option Rat) → Except String Rat)
    (s : Session α) (entered : String → Rat) : Session α × Option PredictDisplay :=
  match input_df s.feature_means s.model_features (user_inputs s.feature_means entered) with
  | none => (s, none)
  | some cols => (s, some (press_predict (predict s.model) cols))

/-- A sequence of reruns, one per button press, threading the session
artifacts through. -/
def run_presses {α : Type} (predict : α → List (String × Option Rat) → Except String Rat) :
    Session α → List (String → Rat) → Session α × List (Option PredictDisplay)
  | s, [] => (s, [])
  | s, ent :: rest =>
      let r1 := render_and_press predict s ent
      let r2 := run_presses predict r1.1 rest
      (r2.1, r1.2 :: r2.2)

theorem dlookup_mem {d : List (String × Rat)} {k : String} {v : Rat}
    (h : dlookup d k = some v) : (k, v) ∈ d := by
  induction d with
  | nil => exact absurd h (by simp [dlookup])
  | cons p rest ih =>
      obtain ⟨k2, v2⟩ := p
      simp only [dlookup] at h
      by_cases hk : k = k2
      · rw [if_pos hk] at h
        obtain rfl := Option.some.injEq .. ▸ h
        subst hk
        exact List.mem_cons_self _ _
      · rw [if_neg hk] at h
        exact List.mem_cons_of_mem _ (ih h)

theorem dlookup_isSome_iff {d : List (String × Rat)} {k : String} :
    (dlookup d k).isSome ↔ k ∈ d.map Prod.fst := by
  induction d with
  | nil => simp [dlookup]
  | cons p rest ih =>
      obtain ⟨k2, v2⟩ := p
      simp only [dlookup, List.map_cons, List.mem_cons]
      by_cases hk : k = k2
      · simp [hk]
      · simp [hk, ih]

theorem apply_user_inputs_append (d : List (String × Rat)) (xs ys : List (String × Rat)) :
    apply_user_inputs d (xs ++ ys) = apply_user_inputs (apply_user_inputs d xs) ys := by
  induction xs generalizing d with
  | nil => rfl
  | cons p rest ih =>
      obtain ⟨f, v⟩ := p
      simp only [List.cons_append, apply_user_inputs]
      exact ih _

/-- Unfolding of input_df when every model feature has a mean:
input_df_dict succeeds and each column f carries the lookup of f in
the override-updated dict. -/
theorem input_df_some (fm : List (String × Rat)) (mf : List String)
    (ui : List (String × Rat)) (hcov : ∀ f ∈ mf, (dlookup fm f).isSome) :
    ∃ d0, input_df_dict fm mf = some d0 ∧
      (∀ k, dlookup d0 k = if k ∈ mf then dlookup fm k else none) ∧
      input_df fm mf ui =
        some (mf.map (fun f => (f, dlookup (apply_user_inputs d0 ui) f))) := by
  have hs : (build_means_dict fm [] mf).isSome := build_means_dict_isSome fm mf hcov []
  cases hd : build_means_dict fm [] mf with
  | none => rw [hd] at hs; exact absurd hs (by simp)
  | some d0 =>
      refine ⟨d0, hd, ?_, ?_⟩
      · intro k
        have := build_means_dict_lookup fm mf [] d0 hd k
        simpa [dlookup] using this
      · simp only [input_df, input_df_dict, hd]

/-- Concrete example artifacts from the spec scenario: means
\x7bViews:1000, Subscribers:50, all others 0\x7d restricted to the model
features [Views, Subscribers, Likes]. -/
def means_ex : List (String × Rat) := [("Views", 1000), ("Subscribers", 50), ("Likes", 0)]

/-- Concrete example model feature list [Views, Subscribers, Likes]. -/
def mf_ex : List String := ["Views", "Subscribers", "Likes"]

/-- Concrete example user override: Views=5000 only. -/
def ui_ex : List (String × Rat) := [("Views", 5000)]

/-- C1: for every model feature list, covering means mapping and
user-override mapping, the constructed vector assigns to each model
feature the override value when the feature is a key of the override
mapping (and of the mean-initialized dict, which holds under
coverage), and the mean otherwise. -/
theorem C1_vector_merges_overrides (fm : List (String × Rat)) (mf : List String)
    (ui : List (String × Rat)) (hcov : ∀ f ∈ mf, (dlookup fm f).isSome)
    (hnd : (ui.map Prod.fst).Nodup) :
    input_df fm mf ui =
      some (mf.map (fun f => (f, (dlookup ui f).or (dlookup fm f)))) := by
  obtain ⟨d0, _, hchar, hdf⟩ := input_df_some fm mf ui hcov
  rw [hdf]
  congr 1
  apply List.map_congr_left
  intro f hf
  have hd0 : dlookup d0 f = dlookup fm f := by rw [hchar f, if_pos hf]
  have hdm : dmem d0 f := by
    simp only [dmem, hd0]; exact hcov f hf
  cases hu : dlookup ui f with
  | some v =>
      have hv : (f, v) ∈ ui := dlookup_mem hu
      rw [dlookup_apply_user_inputs_mem ui d0 f v hnd hv hdm, Option.or]
  | none =>
      have hnm : f ∉ ui.map Prod.fst := by
        intro hmem
        have := dlookup_isSome_iff.mpr hmem
        rw [hu] at this
        exact absurd this (by simp)
      rw [dlookup_apply_user_inputs_not_mem ui d0 f hnm, hd0, Option.or]

/-- Witness for C1: the spec scenario means=\x7bViews:1000,
Subscribers:50, Likes:0\x7d, model features [Views, Subscribers, Likes],
override Views=5000 yields the vector [5000, 50, 0] in that order. -/
theorem C1_vector_merges_overrides_witness :
    input_df means_ex mf_ex ui_ex =
      some [("Views", some 5000), ("Subscribers", some 50), ("Likes", some 0)] := by
  have h := C1_vector_merges_overrides means_ex mf_ex ui_ex (by decide) (by decide)
  rw [h]
  rfl

/-- C2: for every combination of user-entered values in the 11 form
inputs, the column names of the DataFrame passed to predict are
exactly the model feature list in order, and under a duplicate-free
model feature list every expected name appears exactly once. -/
theorem C2_column_order (fm : List (String × Rat)) (mf : List String)
    (entered : String → Rat) (hcov : ∀ f ∈ mf, (dlookup fm f).isSome)
    (hnd : mf.Nodup) :
    ∃ cols, input_df fm mf (user_inputs fm entered) = some cols ∧
      cols.map Prod.fst = mf ∧
      ∀ f ∈ mf, (cols.map Prod.fst).count f = 1 := by
  obtain ⟨d0, _, _, hdf⟩ := input_df_some fm mf (user_inputs fm entered) hcov
  refine ⟨_, hdf, ?_, ?_⟩
  · simp [List.map_map, Function.comp_def]
  · intro f hf
    have hm : (mf.map (fun f => (f, dlookup (apply_user_inputs d0 (user_inputs fm entered)) f))).map Prod.fst = mf := by
      simp [List.map_map, Function.comp_def]
    rw [hm]
    exact List.count_eq_one_of_mem hnd hf

/-- Witness for C2: at the concrete artifacts the columns come out as
[Views, Subscribers, Likes], each once. -/
theorem C2_column_order_witness :
    ∃ cols, input_df means_ex mf_ex (user_inputs means_ex (fun _ => 7)) = some cols ∧
      cols.map Prod.fst = mf_ex ∧
      ∀ f ∈ mf_ex, (cols.map Prod.fst).count f = 1 :=
  C2_column_order means_ex mf_ex (fun _ => 7) (by decide) (by decide)

/-- C3: a model feature not among the 11 displayed features keeps its
historical mean in the constructed vector, for every form state. -/
theorem C3_hidden_feature_keeps_mean (fm : List (String × Rat)) (mf : List String)
    (entered : String → Rat) (f : String)
    (hcov : ∀ g ∈ mf, (dlookup fm g).isSome) (hf : f ∈ mf)
    (hhid : f ∉ input_features_display_names.map Prod.fst) :
    ∃ cols, input_df fm mf (user_inputs fm entered) = some cols ∧
      (f, dlookup fm f) ∈ cols ∧
      ∀ c ∈ cols, c.1 = f → c.2 = dlookup fm f := by
  obtain ⟨d0, _, hchar, hdf⟩ := input_df_some fm mf (user_inputs fm entered) hcov
  have hkeys : (user_inputs fm entered).map Prod.fst =
      input_features_display_names.map Prod.fst := rfl
  have hnm : f ∉ (user_inputs fm entered).map Prod.fst := by rw [hkeys]; exact hhid
  have hval : dlookup (apply_user_inputs d0 (user_inputs fm entered)) f = dlookup fm f := by
    rw [dlookup_apply_user_inputs_not_mem _ _ _ hnm, hchar f, if_pos hf]
  refine ⟨_, hdf, ?_, ?_⟩
  · exact List.mem_map.mpr ⟨f, hf, by rw [hval]⟩
  · intro c hc hcf
    obtain ⟨g, _, hg⟩ := List.mem_map.mp hc
    have hgf : g = f := by rw [← hg] at hcf; exact hcf
    subst hgf
    rw [← hg]
    simpa using hval

/-- Witness for C3: with model features [Views, Subscribers, Likes,
Red (%)] where Red (%) is hidden, Red (%) keeps its mean 9 whatever the
form holds. -/
theorem C3_hidden_feature_keeps_mean_witness :
    ∃ cols,
      input_df (("Red (%)", (9:Rat)) :: means_ex) (mf_ex ++ ["Red (%)"])
        (user_inputs (("Red (%)", (9:Rat)) :: means_ex) (fun _ => 123)) = some cols ∧
      ("Red (%)", dlookup (("Red (%)", (9:Rat)) :: means_ex) "Red (%)") ∈ cols ∧
      ∀ c ∈ cols, c.1 = "Red (%)" →
        c.2 = dlookup (("Red (%)", (9:Rat)) :: means_ex) "Red (%)" :=
  C3_hidden_feature_keeps_mean (("Red (%)", (9:Rat)) :: means_ex) (mf_ex ++ ["Red (%)"])
    (fun _ => 123) "Red (%)" (by decide) (by decide) (by decide)

/-- C6: for every means mapping the form renders exactly 11 numeric
inputs, named by the 11 display features, each defaulting to the
historical mean of its feature with fallback 0 when the feature is
absent from the means mapping. -/
theorem C6_form_defaults (fm : List (String × Rat)) :
    (form_widgets fm).length = 11 ∧
    (form_widgets fm).map Prod.fst = input_features_display_names.map Prod.fst ∧
    ∀ p ∈ form_widgets fm, p.2.value = dget fm p.1 0 := by
  refine ⟨rfl, rfl, ?_⟩
  intro p hp
  simp only [form_widgets, List.mem_cons, List.not_mem_nil, or_false] at hp
  rcases hp with rfl | rfl | rfl | rfl | rfl | rfl | rfl | rfl | rfl | rfl | rfl <;> rfl

/-- Witness for C6 at the concrete means mapping of the scenario. -/
theorem C6_form_defaults_witness :
    (form_widgets means_ex).length = 11 ∧
    (form_widgets means_ex).map Prod.fst = input_features_display_names.map Prod.fst ∧
    ∀ p ∈ form_widgets means_ex, p.2.value = dget means_ex p.1 0 :=
  C6_form_defaults means_ex

theorem widget_value_nonneg_of_none (w : NumberInput) (x : Rat)
    (h0 : w.min_value = 0) (hm : w.max_value = none) : 0 ≤ widget_value w x := by
  unfold widget_value
  simp only [hm, h0]
  exact le_max_left _ _

theorem widget_value_nonneg_of_100 (w : NumberInput) (x : Rat)
    (h0 : w.min_value = 0) (hm : w.max_value = some 100) :
    0 ≤ widget_value w x ∧ widget_value w x ≤ 100 := by
  unfold widget_value
  simp only [hm, h0]
  exact ⟨le_min (le_max_left _ _) (by norm_num), min_le_right _ _⟩

/-- C7: every widget has minimum 0 and exactly the two percentage
widgets carry maximum 100, so every value the form can put in the
user-override mapping is at least 0, and at most 100 for the two
percentage features. -/
theorem C7_form_bounds (fm : List (String × Rat)) (entered : String → Rat) :
    (∀ w ∈ form_widgets fm, w.2.min_value = 0 ∧
      (w.1 ∈ percentage_features → w.2.max_value = some 100)) ∧
    (∀ p ∈ user_inputs fm entered,
      0 ≤ p.2 ∧ (p.1 ∈ percentage_features → p.2 ≤ 100)) := by
  constructor
  · intro w hw
    simp only [form_widgets, List.mem_cons, List.not_mem_nil, or_false] at hw
    rcases hw with rfl | rfl | rfl | rfl | rfl | rfl | rfl | rfl | rfl | rfl | rfl
    · exact ⟨rfl, fun h => absurd h (show ("Views":String) ∉ percentage_features by decide)⟩
    · exact ⟨rfl, fun h => absurd h (show ("Watch Time (hours)":String) ∉ percentage_features by decide)⟩
    · exact ⟨rfl, fun h => absurd h (show ("Subscribers":String) ∉ percentage_features by decide)⟩
    · exact ⟨rfl, fun h => absurd h (show ("Video Duration":String) ∉ percentage_features by decide)⟩
    · exact ⟨rfl, fun h => absurd h (show ("Likes":String) ∉ percentage_features by decide)⟩
    · exact ⟨rfl, fun h => absurd h (show ("New Comments":String) ∉ percentage_features by decide)⟩
    · exact ⟨rfl, fun h => absurd h (show ("Shares":String) ∉ percentage_features by decide)⟩
    · exact ⟨rfl, fun h => absurd h (show ("Impressions":String) ∉ percentage_features by decide)⟩
    · exact ⟨rfl, fun _ => rfl⟩
    · exact ⟨rfl, fun _ => rfl⟩
    · exact ⟨rfl, fun h => absurd h (show ("Average View Duration":String) ∉ percentage_features by decide)⟩
  · intro p hp
    simp only [user_inputs, List.mem_map] at hp
    obtain ⟨a, ha, rfl⟩ := hp
    simp only [form_widgets, List.mem_cons, List.not_mem_nil, or_false] at ha
    rcases ha with rfl | rfl | rfl | rfl | rfl | rfl | rfl | rfl | rfl | rfl | rfl
    · exact ⟨widget_value_nonneg_of_none _ _ rfl rfl,
        fun h => absurd h (show ("Views":String) ∉ percentage_features by decide)⟩
    · exact ⟨widget_value_nonneg_of_none _ _ rfl rfl,
        fun h => absurd h (show ("Watch Time (hours)":String) ∉ percentage_features by decide)⟩
    · exact ⟨widget_value_nonneg_of_none _ _ rfl rfl,
        fun h => absurd h (show ("Subscribers":String) ∉ percentage_features by decide)⟩
    · exact ⟨widget_value_nonneg_of_none _ _ rfl rfl,
        fun h => absurd h (show ("Video Duration":String) ∉ percentage_features by decide)⟩
    · exact ⟨widget_value_nonneg_of_none _ _ rfl rfl,
        fun h => absurd h (show ("Likes":String) ∉ percentage_features by decide)⟩
    · exact ⟨widget_value_nonneg_of_none _ _ rfl rfl,
        fun h => absurd h (show ("New Comments":String) ∉ percentage_features by decide)⟩
    · exact ⟨widget_value_nonneg_of_none _ _ rfl rfl,
        fun h => absurd h (show ("Shares":String) ∉ percentage_features by decide)⟩
    · exact ⟨widget_value_nonneg_of_none _ _ rfl rfl,
        fun h => absurd h (show ("Impressions":String) ∉ percentage_features by decide)⟩
    · exact ⟨(widget_value_nonneg_of_100 _ _ rfl rfl).1,
        fun _ => (widget_value_nonneg_of_100 _ _ rfl rfl).2⟩
    · exact ⟨(widget_value_nonneg_of_100 _ _ rfl rfl).1,
        fun _ => (widget_value_nonneg_of_100 _ _ rfl rfl).2⟩
    · exact ⟨widget_value_nonneg_of_none _ _ rfl rfl,
        fun h => absurd h (show ("Average View Duration":String) ∉ percentage_features by decide)⟩

/-- Witness for C7: the Views entry produced by typing 5000 into every
widget is at least 0, and Views is not percentage-typed. -/
theorem C7_form_bounds_witness :
    0 ≤ (("Views", (5000:Rat)) : String × Rat).2 ∧
    ((("Views", (5000:Rat)) : String × Rat).1 ∈ percentage_features →
      (("Views", (5000:Rat)) : String × Rat).2 ≤ 100) :=
  (C7_form_bounds means_ex (fun _ => 5000)).2 ("Views", 5000) (by decide)

/-- C8: an override entry whose feature name is not a model feature is
silently dropped: the constructed vector with the entry equals the one
without it, wherever the entry sits in the override mapping. -/
theorem C8_unknown_override_dropped (fm : List (String × Rat)) (mf : List String)
    (ui1 ui2 : List (String × Rat)) (f : String) (v : Rat) (h : f ∉ mf) :
    input_df fm mf (ui1 ++ (f, v) :: ui2) = input_df fm mf (ui1 ++ ui2) := by
  unfold input_df
  cases hd : input_df_dict fm mf with
  | none => rfl
  | some d0 =>
      have hchar := build_means_dict_lookup fm mf [] d0 hd
      have hd0 : dlookup d0 f = none := by
        rw [hchar f, if_neg h]; rfl
      have hnm : dmem (apply_user_inputs d0 ui1) f = false := by
        rw [dmem_apply_user_inputs]
        simp [dmem, hd0]
      have key : apply_user_inputs d0 (ui1 ++ (f, v) :: ui2) =
          apply_user_inputs d0 (ui1 ++ ui2) := by
        rw [apply_user_inputs_append, apply_user_inputs_append]
        simp [apply_user_inputs, hnm]
      dsimp only
      rw [key]

/-- Witness for C8: an override for Shares, not a model feature of the
example, leaves the constructed vector unchanged. -/
theorem C8_unknown_override_dropped_witness :
    input_df means_ex mf_ex ([("Views", 5000)] ++ ("Shares", 3) :: []) =
      input_df means_ex mf_ex ([("Views", 5000)] ++ []) :=
  C8_unknown_override_dropped means_ex mf_ex [("Views", 5000)] [] "Shares" 3 (by decide)

/-- C9: when a model feature is absent from the means mapping the
mean-initialization dict comprehension raises KeyError (none), so no
vector is ever constructed, while the widget default for that feature
falls back to 0 instead of failing. -/
theorem C9_missing_mean_keyerror (fm : List (String × Rat)) (mf : List String)
    (f : String) (hf : f ∈ mf) (habs : dlookup fm f = none) :
    input_df_dict fm mf = none ∧
    (∀ ui, input_df fm mf ui = none) ∧
    dget fm f 0 = 0 ∧
    ∀ p ∈ form_widgets fm, p.1 = f → p.2.value = 0 := by
  have hnone : input_df_dict fm mf = none := build_means_dict_none fm mf f hf habs []
  refine ⟨hnone, ?_, ?_, ?_⟩
  · intro ui
    unfold input_df
    rw [hnone]
  · unfold dget
    rw [habs]
    rfl
  · intro p hp hpf
    have hv := (C6_form_defaults fm).2.2 p hp
    rw [hv, hpf]
    unfold dget
    rw [habs]
    rfl

/-- Witness for C9: with Likes missing from the means, the dict build
fails, input_df is none for the example override, and the Likes widget
default is 0. -/
theorem C9_missing_mean_keyerror_witness :
    input_df_dict [("Views", 1000), ("Subscribers", 50)] mf_ex = none ∧
    (∀ ui, input_df [("Views", 1000), ("Subscribers", 50)] mf_ex ui = none) ∧
    dget [("Views", 1000), ("Subscribers", 50)] "Likes" 0 = 0 ∧
    ∀ p ∈ form_widgets [("Views", 1000), ("Subscribers", 50)],
      p.1 = "Likes" → p.2.value = 0 :=
  C9_missing_mean_keyerror [("Views", 1000), ("Subscribers", 50)] mf_ex "Likes"
    (by decide) (by decide)

/-- C4 counterexample: the claim says the load failure error names
which artifact(s) are missing, but the displayed message is one fixed
string: a session missing only the model artifact and a session
missing only the means artifact halt with the identical message, so
the message cannot identify the missing artifact. -/
theorem C4_fixed_message_counterexample :
    runSession (none : Option Unit) (some mf_ex) (some means_ex) (fun _ => 0) =
      SessionView.halted load_error_msg ∧
    runSession (some ()) (some mf_ex) (none : Option (List (String × Rat))) (fun _ => 0) =
      SessionView.halted load_error_msg ∧
    load_error_msg = load_error_msg :=
  ⟨rfl, rfl, rfl⟩

/-- C4 amended: if any of the three artifacts is missing, the session
halts with the fixed error message that lists all three artifact
filenames, before rendering any input form; a form page is only ever
rendered with all three artifacts present. -/
theorem C4_halt_before_form {α : Type} (model : Option α)
    (model_features : Option (List String)) (feature_means : Option (List (String × Rat)))
    (entered : String → Rat)
    (h : model = none ∨ model_features = none ∨ feature_means = none) :
    runSession model model_features feature_means entered =
      SessionView.halted load_error_msg ∧
    ∀ ws df, runSession model model_features feature_means entered ≠
      SessionView.page ws df := by
  have hh : runSession model model_features feature_means entered =
      SessionView.halted load_error_msg := by
    rcases h with h | h | h
    · subst h; rfl
    · subst h
      cases model with
      | none => rfl
      | some m => rfl
    · subst h
      cases model with
      | none => rfl
      | some m =>
          cases model_features with
          | none => rfl
          | some mf => rfl
  refine ⟨hh, ?_⟩
  intro ws df hpage
  rw [hh] at hpage
  exact SessionView.noConfusion hpage

/-- Witness for C4 amended: with only the model artifact missing the
session halts with the fixed message and renders no form. -/
theorem C4_halt_before_form_witness :
    runSession (none : Option Unit) (some mf_ex) (some means_ex) (fun _ => 1) =
      SessionView.halted load_error_msg ∧
    ∀ ws df, runSession (none : Option Unit) (some mf_ex) (some means_ex) (fun _ => 1) ≠
      SessionView.page ws df :=
  C4_halt_before_form none (some mf_ex) (some means_ex) (fun _ => 1) (Or.inl rfl)

/-- C5: an exception raised by model.predict after the button press is
caught, its text is shown verbatim after the fixed error banner, and
the session artifacts are untouched, so the form stays usable. -/
theorem C5_predict_error_caught {α : Type}
    (predict : α → List (String × Option Rat) → Except String Rat)
    (s : Session α) (entered : String → Rat)
    (cols : List (String × Option Rat)) (e : String)
    (hdf : input_df s.feature_means s.model_features
      (user_inputs s.feature_means entered) = some cols)
    (he : predict s.model cols = Except.error e) :
    render_and_press predict s entered =
      (s, some (PredictDisplay.errorMsg ("An error occurred during prediction: " ++ e))) := by
  unfold render_and_press
  rw [hdf]
  dsimp only
  unfold press_predict
  rw [he]

/-- Witness for C5: a model that raises with text boom yields the
displayed error text containing boom verbatim and leaves the session
unchanged. -/
theorem C5_predict_error_caught_witness :
    render_and_press (fun (_ : Unit) _ => Except.error "boom")
      ⟨(), mf_ex, means_ex⟩ (fun _ => 0) =
      (⟨(), mf_ex, means_ex⟩,
        some (PredictDisplay.errorMsg ("An error occurred during prediction: " ++ "boom"))) :=
  C5_predict_error_caught (fun (_ : Unit) _ => Except.error "boom")
    ⟨(), mf_ex, means_ex⟩ (fun _ => 0)
    [("Views", some 0), ("Subscribers", some 0), ("Likes", some 0)] "boom"
    (by decide) rfl

/-- C10: the feature-means mapping and the model feature list are
never mutated: after any number of prediction presses with any entered
values, the session artifacts equal their initial values. -/
theorem C10_artifacts_never_mutated {α : Type}
    (predict : α → List (String × Option Rat) → Except String Rat)
    (s : Session α) (presses : List (String → Rat)) :
    (run_presses predict s presses).1.feature_means = s.feature_means ∧
    (run_presses predict s presses).1.model_features = s.model_features := by
  induction presses generalizing s with
  | nil => exact ⟨rfl, rfl⟩
  | cons ent rest ih =>
      have hstep : (render_and_press predict s ent).1 = s := by
        unfold render_and_press
        cases input_df s.feature_means s.model_features (user_inputs s.feature_means ent) with
        | none => rfl
        | some cols => rfl
      simp only [run_presses, hstep]
      exact ih s

end YT
